import Mathlib

/-!
Verification of the AHC Front Desk Assistant backend (`main.py`, `schemas.py`):
the Twilio signature verifier and the inbound IVR (voice) webhook handlers.
The Python handlers are shallowly embedded as pure Lean functions; environment
variables become an explicit `Env`, the HTTP request a `Req`, the webhook form
a `Form`, and the fallible side effects (document-store writes, outbound SMS
sends) are driven by an explicit `Failures` oracle recording which of them
raise.  `HTTPException` becomes `Except Nat` carrying the status code.
-/

/-- A parsed webhook form body (`form_dict`): the fields the handlers read via
`form.get(...)`.  Absent fields are `none`; Python `form.get` returns `None`
for them. -/
structure Form where
  digits : Option String
  from_number : Option String
  to_number : Option String
  callSid : Option String
  body : Option String
deriving DecidableEq, Repr

/-- The slice of the HTTP request the verifier reads: `str(request.url)`,
`str(request.url.path)`, and the `X-Twilio-Signature` header (`none` when the
header is absent). -/
structure Req where
  url : String
  path : String
  signature : Option String
deriving DecidableEq, Repr

/-- The environment variables consumed by the webhook subsystem.  `none`
models an unset variable (Python `os.getenv` returning `None`). -/
structure Env where
  validateSignature : Option String
  authToken : Option String
  publicBackendUrl : Option String
  accountSid : Option String
  phoneNumber : Option String
deriving DecidableEq, Repr

/-- Python truthiness of an `Optional[str]`: `None` and `""` are falsy. -/
def pyTruthy : Option String → Bool
  | none => false
  | some s => !s.isEmpty

/-- Python `opt or default` on an `Optional[str]`: the default when falsy. -/
def pyOr (o : Option String) (d : String) : String :=
  match o with
  | none => d
  | some s => if s.isEmpty then d else s

/-- Python f-string interpolation of an `Optional[str]`: `None` prints as
the four characters `None`. -/
def fstrOpt : Option String → String
  | none => "None"
  | some s => s

/-- Python `s.rstrip("/")`: drop the longest run of trailing slashes. -/
def rstripSlash (s : String) : String :=
  ⟨(s.data.reverse.dropWhile (· == '/')).reverse⟩

/-- Python `s.lower()` on the ASCII strings the configuration uses:
character-wise lowercasing. -/
def pyLower (s : String) : String :=
  ⟨s.data.map Char.toLower⟩

/-- The `enforce` flag computed by `validate_twilio_request`:
`os.getenv("TWILIO_VALIDATE_SIGNATURE", "false").lower() == "true"`. -/
def enforceOf (env : Env) : Bool :=
  pyLower (env.validateSignature.getD "false") == "true"

/-- `validate_twilio_request` (main.py lines 115-142).  The Twilio SDK's
`RequestValidator(auth_token).validate(url, form, signature)` is external
library code; it is abstracted as the parameter `v`, applied to the auth
token, a URL, the form and the provided signature.  Control flow is embedded
exactly: bypass when enforcement is off or the token is falsy; fail on a
falsy signature header; try the literal request URL; on mismatch fall back to
`PUBLIC_BACKEND_URL.rstrip("/") + request.url.path` when that variable is
truthy, else fail. -/
def validate_twilio_request (v : String → String → Form → String → Bool)
    (env : Env) (req : Req) (form : Form) : Bool :=
  let enforce := enforceOf env
  if !enforce || !pyTruthy env.authToken then
    true
  else
    if !pyTruthy req.signature then
      false
    else
      let token := env.authToken.getD ""
      let signature := req.signature.getD ""
      if v token req.url form signature then
        true
      else
        if pyTruthy env.publicBackendUrl then
          v token (rstripSlash (env.publicBackendUrl.getD "") ++ req.path) form signature
        else
          false

/-- `InquiryType` (schemas.py line 22): the `Literal` alternatives for a
lead's inquiry type. -/
inductive InquiryType
  | demo | purchase | support | partnership | faq | other
deriving DecidableEq, Repr

/-- `Lead` (schemas.py lines 24-34): name, email, optional company, inquiry
type, optional reason, optional qualification. -/
structure Lead where
  name : String
  email : String
  company : Option String
  inquiry_type : InquiryType
  reason : Option String
  qualification : Option String
deriving DecidableEq, Repr

/-- `IssueType` (schemas.py line 66): the `Literal` alternatives for a
support ticket's issue type. -/
inductive IssueType
  | technical | billing | account | other
deriving DecidableEq, Repr

/-- `SupportTicket` (schemas.py lines 58-70). -/
structure SupportTicket where
  name : String
  email : String
  company : Option String
  issue_type : IssueType
  subject : String
  description : String
  priority : String
  tags : List String
deriving DecidableEq, Repr

/-- Modelled from the spec: `SmsMessage` is imported by main.py from
schemas.py but its class is absent from the sources; section 3 of the spec
gives its fields as `to, from, body, direction in {inbound,outbound}, status,
sidOptional`. -/
structure SmsMessage where
  to_number : Option String
  from_number : Option String
  body : String
  direction : String
  status : String
  sid : Option String
deriving DecidableEq, Repr

/-- Modelled from the spec: `CallLog` is imported by main.py from schemas.py
but its class is absent from the sources; section 3 of the spec gives its
fields as `to, from, sid, status, direction in {inbound,outbound}`. -/
structure CallLog where
  to_number : Option String
  from_number : Option String
  sid : Option String
  status : String
  direction : String
deriving DecidableEq, Repr

/-- One call to the external client's `messages.create(body, from_, to)`. -/
structure SmsSend where
  to_number : String
  from_number : String
  body : String
deriving DecidableEq, Repr

/-- The persistence and outbound-messaging side effects accumulated by one
webhook invocation: `create_document` writes per collection, plus the list of
attempted `messages.create` calls. -/
structure Effects where
  callLogs : List CallLog
  leads : List Lead
  tickets : List SupportTicket
  smsRecords : List SmsMessage
  smsAttempts : List SmsSend
deriving DecidableEq, Repr

/-- No side effect performed. -/
def Effects.empty : Effects := ⟨[], [], [], [], []⟩

/-- Which fallible side effects raise during one invocation: the document
writes (`create_document`) per collection and the outbound SMS send
(`client.messages.create`).  `false` everywhere models the run in which every
side effect succeeds. -/
structure Failures where
  callLogFails : Bool
  leadFails : Bool
  ticketFails : Bool
  smsSendFails : Bool
  smsRecordFails : Bool
  inboundSmsFails : Bool
deriving DecidableEq, Repr

/-- The all-succeed oracle. -/
def Failures.none : Failures := ⟨false, false, false, false, false, false⟩

/-- Telephony markup (TwiML), as the handlers build it: `say` verbs and a
`gather` verb with its `action`, `num_digits`, `timeout` and nested verbs.
A `VoiceResponse` body is a list of these. -/
inductive Twiml
  | say (text : String)
  | gather (action : String) (numDigits : Nat) (timeout : Nat)
      (children : List Twiml)
deriving Repr

/-- Whether `get_twilio_client()` (main.py lines 107-112) succeeds: both
`TWILIO_ACCOUNT_SID` and `TWILIO_AUTH_TOKEN` must be truthy, otherwise it
raises and `voice_handle_gather` sets `client = None`. -/
def clientOk (env : Env) : Bool :=
  pyTruthy env.accountSid && pyTruthy env.authToken

/-- The nested `safe_sms(to, text)` closure of `voice_handle_gather`
(main.py lines 619-631).  It captures `client` (here `cOk`, whether
`get_twilio_client()` succeeded), `TWILIO_PHONE_NUMBER` (`twilio_from`) and
the failure oracle.  When client, from-number and destination are all
truthy it attempts `client.messages.create`; only when that returns does it
write the outbound `smsmessage` record; every exception is swallowed.
Returns the attempted sends and the written records. -/
def safe_sms (cOk : Bool) (twilio_from : Option String) (o : Failures)
    (dest : Option String) (text : String) :
    List SmsSend × List SmsMessage :=
  if cOk && pyTruthy twilio_from && pyTruthy dest then
    let send : SmsSend := ⟨dest.getD "", twilio_from.getD "", text⟩
    if o.smsSendFails then
      ([send], [])
    else if o.smsRecordFails then
      ([send], [])
    else
      ([send], [⟨dest, twilio_from, text, "outbound", "queued", none⟩])
  else
    ([], [])

/-- The post-validation body of `voice_handle_gather` (main.py lines
606-678): branch on `Digits`, perform the branch's side effects with all
exceptions swallowed, and build the single-verb voice response. -/
def voice_handle_gather_body (env : Env) (form : Form) (o : Failures) :
    List Twiml × Effects :=
  let digits := form.digits
  let from_number := form.from_number
  let cOk := clientOk env
  let twilio_from := env.phoneNumber
  if digits = some "1" then
    let s := safe_sms cOk twilio_from o from_number
      "Thanks for calling AHC! Schedule your demo here: https://cal.com/ahc/demo"
    let leads : List Lead :=
      if o.leadFails then []
      else [⟨"Phone Caller", "caller@unknown.local", none, .demo,
             some ("Selected '1' in IVR; phone: " ++ pyOr from_number "unknown"),
             none⟩]
    ([.say "Great. We'll text you a link to schedule a demo shortly. Goodbye."],
     ⟨[], leads, [], s.2, s.1⟩)
  else if digits = some "2" then
    let tickets : List SupportTicket :=
      if o.ticketFails then []
      else [⟨"Phone Caller", "caller@unknown.local", none, .other,
             "Support via IVR",
             "Caller " ++ fstrOpt from_number ++ " requested support via IVR",
             "medium", []⟩]
    let s := safe_sms cOk twilio_from o from_number
      "Support request received. Our team will follow up shortly. Reply here with details."
    ([.say "Support selected. We will follow up by text. Goodbye."],
     ⟨[], [], tickets, s.2, s.1⟩)
  else if digits = some "3" then
    let s := safe_sms cOk twilio_from o from_number
      "Thanks! A member of sales will reach out. Learn more: https://example.com/sales"
    let leads : List Lead :=
      if o.leadFails then []
      else [⟨"Phone Caller", "caller@unknown.local", none, .purchase,
             some "Selected '3' in IVR; sales interest", none⟩]
    ([.say "Sales selected. Our team will reach out. Goodbye."],
     ⟨[], leads, [], s.2, s.1⟩)
  else
    ([.say "Invalid selection. Goodbye."], Effects.empty)

/-- `voice_handle_gather` (main.py lines 599-678): reject with HTTP 403 when
the Twilio signature does not validate, otherwise run the IVR branch body. -/
def voice_handle_gather (v : String → String → Form → String → Bool)
    (env : Env) (req : Req) (form : Form) (o : Failures) :
    Except Nat (List Twiml × Effects) :=
  if validate_twilio_request v env req form then
    .ok (voice_handle_gather_body env form o)
  else
    .error 403

/-- `voice_twiml` (main.py lines 564-596): reject with HTTP 403 on a bad
signature; otherwise best-effort append an `inbound-start` call log, then
respond with a one-digit six-second gather (action at the handle-gather
path, prefixed by `PUBLIC_BACKEND_URL` stripped of trailing slashes when
that variable is truthy) wrapping the greeting, followed by the no-input
fallback line. -/
def voice_twiml (v : String → String → Form → String → Bool)
    (env : Env) (req : Req) (form : Form) (o : Failures) :
    Except Nat (List Twiml × Effects) :=
  if validate_twilio_request v env req form then
    let callLogs : List CallLog :=
      if o.callLogFails then []
      else [⟨form.to_number, form.from_number, form.callSid,
             "inbound-start", "inbound"⟩]
    let base_url := env.publicBackendUrl.getD ""
    let action_path := "/voice/handle-gather"
    let action_url :=
      if !base_url.isEmpty then rstripSlash base_url ++ action_path
      else action_path
    .ok ([.gather action_url 1 6
            [.say "Welcome to A H C front desk. Press 1 to book a demo. Press 2 for support. Press 3 for sales."],
          .say "We didn't receive any input. Goodbye."],
         ⟨callLogs, [], [], [], []⟩)
  else
    .error 403

/-- `sms_webhook` (main.py lines 494-518): reject with HTTP 403 on a bad
signature; otherwise persist the inbound `smsmessage` (not wrapped in a
try/except, so a write failure propagates as a server error) and reply with
the auto-reply message text. -/
def sms_webhook (v : String → String → Form → String → Bool)
    (env : Env) (req : Req) (form : Form) (o : Failures) :
    Except Nat (String × Effects) :=
  if validate_twilio_request v env req form then
    if o.inboundSmsFails then
      .error 500
    else
      let body := form.body.getD ""
      .ok ("Thanks for texting AHC! We received: '" ++ pyOr (some body) "" ++
             "'. We'll be in touch shortly.",
           ⟨[], [], [], [⟨form.to_number, form.from_number, body,
                          "inbound", "received", none⟩], []⟩)
  else
    .error 403

/-- The persistence side effects of an endpoint outcome; an aborted request
(HTTP error raised before the handler body ran) performed none. -/
def effectsOf {α : Type} : Except Nat (α × Effects) → Effects
  | .ok (_, e) => e
  | .error _ => Effects.empty

/-- C1: for every request, if signature enforcement is disabled or no shared
secret (auth token) is configured, `validate_twilio_request` returns true
regardless of the provided signature, the URL, or the form fields — for every
possible validator, including when enforcement is requested but the secret is
absent. -/
theorem C1_verifier_open_when_disabled_or_no_secret
    (v : String → String → Form → String → Bool)
    (env : Env) (req : Req) (form : Form)
    (h : enforceOf env = false ∨ pyTruthy env.authToken = false) :
    validate_twilio_request v env req form = true := by
  unfold validate_twilio_request
  rcases h with h | h <;> simp [h]

/-- Witness for C1: enforcement explicitly requested, no auth token
configured, a signature present, and a validator that rejects everything —
verification still returns true. -/
theorem C1_verifier_open_when_disabled_or_no_secret_witness :
    validate_twilio_request (fun _ _ _ _ => false)
      ⟨some "true", none, some "https://pub.example", none, none⟩
      ⟨"http://internal/voice/twiml", "/voice/twiml", some "bogus"⟩
      ⟨some "1", some "+15551234567", none, none, none⟩ = true :=
  C1_verifier_open_when_disabled_or_no_secret _ _ _ _ (Or.inr (by decide))

/-- C9: when enforcement is on and a shared secret is configured, a request
with no `X-Twilio-Signature` header fails verification, for every possible
validator — no signature computation can change the outcome. -/
theorem C9_missing_signature_fails
    (v : String → String → Form → String → Bool)
    (env : Env) (req : Req) (form : Form)
    (henf : enforceOf env = true)
    (htok : pyTruthy env.authToken = true)
    (hsig : req.signature = none) :
    validate_twilio_request v env req form = false := by
  unfold validate_twilio_request
  have hn : pyTruthy req.signature = false := by rw [hsig]; rfl
  simp [henf, htok, hn]

/-- Witness for C9: enforcement on, token configured, header absent, with an
accept-everything validator — verification still fails. -/
theorem C9_missing_signature_fails_witness :
    validate_twilio_request (fun _ _ _ _ => true)
      ⟨some "true", some "tok", some "https://pub.example", none, none⟩
      ⟨"http://internal/voice/twiml", "/voice/twiml", none⟩
      ⟨some "1", none, none, none, none⟩ = false :=
  C9_missing_signature_fails _ _ _ _ (by decide) (by decide) rfl

/-- C6: with enforcement on, a secret and a signature present, and the
comparison against the literal request URL failing, the verifier accepts the
request exactly when a public base URL is configured (truthy) and the
signature validates against that base URL stripped of trailing slashes
concatenated with the request path; in particular it returns false when both
comparisons fail or when the literal comparison fails with no public base URL
configured. -/
theorem C6_fallback_url_tolerance
    (v : String → String → Form → String → Bool)
    (env : Env) (req : Req) (form : Form) (tok sig : String)
    (henf : enforceOf env = true)
    (htok : env.authToken = some tok) (htokT : pyTruthy env.authToken = true)
    (hsig : req.signature = some sig) (hsigT : pyTruthy req.signature = true)
    (hlit : v tok req.url form sig = false) :
    validate_twilio_request v env req form =
      (pyTruthy env.publicBackendUrl &&
        v tok (rstripSlash (env.publicBackendUrl.getD "") ++ req.path) form sig) := by
  unfold validate_twilio_request
  have h1 : pyTruthy (some tok) = true := htok ▸ htokT
  have h2 : pyTruthy (some sig) = true := hsig ▸ hsigT
  simp [henf, htok, hsig, h1, h2, hlit]

/-- Witness for C6: a validator that accepts exactly the string
`token|url` as signature; the literal (internal) URL fails, the configured
public base URL (with a trailing slash to strip) plus the path matches, and
verification succeeds. -/
theorem C6_fallback_url_tolerance_witness :
    validate_twilio_request (fun t u _ s => s == t ++ "|" ++ u)
      ⟨some "true", some "tok", some "https://pub.example/", none, none⟩
      ⟨"http://internal/voice/twiml", "/voice/twiml",
       some "tok|https://pub.example/voice/twiml"⟩
      ⟨some "1", none, none, none, none⟩ = true :=
  (C6_fallback_url_tolerance _ _ _ _ "tok" "tok|https://pub.example/voice/twiml"
      (by decide) rfl (by decide) rfl (by decide) (by decide)).trans (by decide)

/-- C2: for every gather-handled invocation body, whatever side effects fail
(persisting the lead, ticket or SMS record, or sending the confirmation SMS),
the voice markup returned to the caller is identical to the markup of the run
in which every side effect succeeds, for the same form (same digits and
caller number) and environment. -/
theorem C2_markup_unchanged_by_side_effect_failures
    (env : Env) (form : Form) (o : Failures) :
    (voice_handle_gather_body env form o).1 =
    (voice_handle_gather_body env form Failures.none).1 := by
  unfold voice_handle_gather_body
  by_cases h1 : form.digits = some "1" <;>
    by_cases h2 : form.digits = some "2" <;>
    by_cases h3 : form.digits = some "3" <;>
    simp [h1, h2, h3]

/-- C3: for every gather-handled invocation body whose digits value is
anything other than exactly `"1"`, `"2"` or `"3"` (including empty,
multi-character and absent digits), no side effect is performed — no Lead,
no SupportTicket, no SmsMessage, no SMS attempt — and the markup speaks only
the invalid-selection goodbye line. -/
theorem C3_unmapped_digits_invalid_branch
    (env : Env) (form : Form) (o : Failures)
    (h1 : form.digits ≠ some "1")
    (h2 : form.digits ≠ some "2")
    (h3 : form.digits ≠ some "3") :
    voice_handle_gather_body env form o =
      ([.say "Invalid selection. Goodbye."], Effects.empty) := by
  unfold voice_handle_gather_body
  simp [h1, h2, h3]

/-- Witness for C3: `Digits=5` with a caller number present and everything
configured — still no side effects and the invalid-selection line. -/
theorem C3_unmapped_digits_invalid_branch_witness :
    voice_handle_gather_body
      ⟨some "true", some "tok", none, some "sid", some "+15557770000"⟩
      ⟨some "5", some "+15551234567", some "+15550000000", some "CA1", none⟩
      Failures.none =
      ([.say "Invalid selection. Goodbye."], Effects.empty) :=
  C3_unmapped_digits_invalid_branch _ _ _ (by decide) (by decide) (by decide)

/-- C4: for every gather-handled invocation body with digits `"1"`, a
constructible client, a configured outbound number and a present caller
number, when every side effect succeeds the controller attempts exactly one
confirmation SMS carrying the scheduling link, records the one outbound
SmsMessage, creates exactly one Lead with inquiry type demo, placeholder
name and email, and a reason referencing the caller's number, and responds
with markup speaking the demo-confirmation line. -/
theorem C4_demo_branch
    (env : Env) (form : Form) (fr tf : String)
    (hd : form.digits = some "1")
    (hfrom : form.from_number = some fr)
    (hfrT : pyTruthy form.from_number = true)
    (hclient : clientOk env = true)
    (htf : env.phoneNumber = some tf)
    (htfT : pyTruthy env.phoneNumber = true) :
    voice_handle_gather_body env form Failures.none =
      ([.say "Great. We'll text you a link to schedule a demo shortly. Goodbye."],
       ⟨[],
        [⟨"Phone Caller", "caller@unknown.local", none, .demo,
          some ("Selected '1' in IVR; phone: " ++ fr), none⟩],
        [],
        [⟨some fr, some tf,
          "Thanks for calling AHC! Schedule your demo here: https://cal.com/ahc/demo",
          "outbound", "queued", none⟩],
        [⟨fr, tf,
          "Thanks for calling AHC! Schedule your demo here: https://cal.com/ahc/demo"⟩]⟩) := by
  have h1 : pyTruthy (some fr) = true := hfrom ▸ hfrT
  have h2 : pyTruthy (some tf) = true := htf ▸ htfT
  have hfr : fr.isEmpty = false := by
    have := h1; unfold pyTruthy at this; simpa using this
  unfold voice_handle_gather_body safe_sms
  simp [hd, hfrom, htf, hclient, h1, h2, Failures.none, pyOr, hfr]

/-- Witness for C4: digits 1 from +15551234567 with full configuration — one
demo lead, one outbound SMS attempt and record, demo-confirmation line. -/
theorem C4_demo_branch_witness :
    voice_handle_gather_body
      ⟨some "true", some "tok", none, some "sid", some "+15557770000"⟩
      ⟨some "1", some "+15551234567", some "+15550000000", some "CA1", none⟩
      Failures.none =
      ([.say "Great. We'll text you a link to schedule a demo shortly. Goodbye."],
       ⟨[],
        [⟨"Phone Caller", "caller@unknown.local", none, .demo,
          some "Selected '1' in IVR; phone: +15551234567", none⟩],
        [],
        [⟨some "+15551234567", some "+15557770000",
          "Thanks for calling AHC! Schedule your demo here: https://cal.com/ahc/demo",
          "outbound", "queued", none⟩],
        [⟨"+15551234567", "+15557770000",
          "Thanks for calling AHC! Schedule your demo here: https://cal.com/ahc/demo"⟩]⟩) :=
  C4_demo_branch _ _ "+15551234567" "+15557770000"
    rfl rfl (by decide) (by decide) rfl (by decide)

/-- C7: for every voice-start webhook that passes signature verification and
whose call-log write succeeds, the handler appends exactly one CallLog with
status `inbound-start` and direction `inbound` (carrying the form's To, From
and CallSid), and returns markup consisting of a Gather with numDigits 1,
timeout 6 and an action URL at the handle-gather path (prefixed by the
public base URL, trailing slashes stripped, when one is configured) wrapping
the three-option greeting, followed by the fallback no-input goodbye line. -/
theorem C7_voice_start_greeting
    (v : String → String → Form → String → Bool)
    (env : Env) (req : Req) (form : Form) (o : Failures)
    (hval : validate_twilio_request v env req form = true)
    (hlog : o.callLogFails = false) :
    voice_twiml v env req form o =
      .ok ([.gather
              (if !(env.publicBackendUrl.getD "").isEmpty then
                 rstripSlash (env.publicBackendUrl.getD "") ++ "/voice/handle-gather"
               else "/voice/handle-gather")
              1 6
              [.say "Welcome to A H C front desk. Press 1 to book a demo. Press 2 for support. Press 3 for sales."],
            .say "We didn't receive any input. Goodbye."],
           ⟨[⟨form.to_number, form.from_number, form.callSid,
              "inbound-start", "inbound"⟩], [], [], [], []⟩) := by
  unfold voice_twiml
  simp [hval, hlog]

/-- Witness for C7: a concrete validated voice-start webhook with a public
base URL carrying a trailing slash; one inbound-start CallLog and the
documented gather markup. -/
theorem C7_voice_start_greeting_witness :
    voice_twiml (fun _ _ _ _ => true)
      ⟨some "true", some "tok", some "https://pub.example/", some "sid", none⟩
      ⟨"https://pub.example/voice/twiml", "/voice/twiml", some "sig"⟩
      ⟨none, some "+15551234567", some "+15550000000", some "CA1", none⟩
      Failures.none =
      .ok ([.gather "https://pub.example/voice/handle-gather" 1 6
              [.say "Welcome to A H C front desk. Press 1 to book a demo. Press 2 for support. Press 3 for sales."],
            .say "We didn't receive any input. Goodbye."],
           ⟨[⟨some "+15550000000", some "+15551234567", some "CA1",
              "inbound-start", "inbound"⟩], [], [], [], []⟩) :=
  (C7_voice_start_greeting _ _ _ _ _ (by decide) rfl).trans (by rfl)

/-- C8: every single gather-handled invocation body, for all digits values,
environments and failure outcomes, creates at most one Lead, at most one
SupportTicket, never both, and at most one outbound SmsMessage record (and
attempts at most one confirmation send). -/
theorem C8_at_most_one_side_effect_set
    (env : Env) (form : Form) (o : Failures) :
    (voice_handle_gather_body env form o).2.leads.length ≤ 1 ∧
    (voice_handle_gather_body env form o).2.tickets.length ≤ 1 ∧
    ((voice_handle_gather_body env form o).2.leads = [] ∨
      (voice_handle_gather_body env form o).2.tickets = []) ∧
    (voice_handle_gather_body env form o).2.smsRecords.length ≤ 1 ∧
    (voice_handle_gather_body env form o).2.smsAttempts.length ≤ 1 := by
  unfold voice_handle_gather_body safe_sms
  by_cases h1 : form.digits = some "1" <;>
    by_cases h2 : form.digits = some "2" <;>
    by_cases h3 : form.digits = some "3" <;>
    simp [h1, h2, h3, Effects.empty] <;>
    (repeat' split) <;> (try simp)

/-- C5: for every inbound webhook request — voice-start, gather-handled or
SMS — whose signature verification fails, the endpoint rejects with HTTP
403, produces no markup body (the result is the bare error), and performs no
side effect of any kind: the extracted effects are empty. -/
theorem C5_rejected_webhook_no_effects
    (v : String → String → Form → String → Bool)
    (env : Env) (req : Req) (form : Form) (o : Failures)
    (h : validate_twilio_request v env req form = false) :
    voice_twiml v env req form o = .error 403 ∧
    voice_handle_gather v env req form o = .error 403 ∧
    sms_webhook v env req form o = .error 403 ∧
    effectsOf (voice_twiml v env req form o) = Effects.empty ∧
    effectsOf (voice_handle_gather v env req form o) = Effects.empty ∧
    effectsOf (sms_webhook v env req form o) = Effects.empty := by
  unfold voice_twiml voice_handle_gather sms_webhook
  simp [h, effectsOf]

/-- Witness for C5: enforcement on, secret configured, signature header
absent — the gather endpoint rejects with 403 even though the abstract
validator would accept anything. -/
theorem C5_rejected_webhook_no_effects_witness :
    voice_handle_gather (fun _ _ _ _ => true)
      ⟨some "true", some "tok", some "https://pub.example", some "sid", some "+15557770000"⟩
      ⟨"https://pub.example/voice/handle-gather", "/voice/handle-gather", none⟩
      ⟨some "1", some "+15551234567", none, none, none⟩
      Failures.none = .error 403 :=
  (C5_rejected_webhook_no_effects _ _ _ _ _ (by decide)).2.1

/-- C10: in the gather handler's `safe_sms`, a confirmation SMS is attempted
exactly when the client could be constructed, an outbound from-number is
configured and the destination (caller) number is truthy; the outbound
SmsMessage record exists exactly when additionally both the provider send
and the record write succeed — so a skipped or failed send never produces a
record — and the missing-configuration case returns silently with no effect
instead of raising. -/
theorem C10_sms_gated_and_recorded_after_send
    (cOk : Bool) (tf dest : Option String) (text : String) (o : Failures) :
    ((safe_sms cOk tf o dest text).1 ≠ [] ↔
        (cOk && pyTruthy tf && pyTruthy dest) = true) ∧
    ((safe_sms cOk tf o dest text).2 ≠ [] ↔
        ((cOk && pyTruthy tf && pyTruthy dest) = true ∧
          o.smsSendFails = false ∧ o.smsRecordFails = false)) ∧
    ((cOk && pyTruthy tf && pyTruthy dest) = false →
        safe_sms cOk tf o dest text = ([], [])) := by
  unfold safe_sms
  by_cases hc : (cOk && pyTruthy tf && pyTruthy dest) = true <;>
    simp [hc] <;>
    by_cases hs : o.smsSendFails = true <;>
      by_cases hr : o.smsRecordFails = true <;>
      simp [hs, hr]

/-- Witness for C10: with full configuration and no failures the record is
written; the failed-send oracle at the same input yields no record; and with
the client missing nothing at all happens. -/
theorem C10_sms_gated_and_recorded_after_send_witness :
    (safe_sms true (some "+15557770000") Failures.none (some "+15551234567") "hi").2 ≠ [] ∧
    (safe_sms true (some "+15557770000") ⟨false, false, false, true, false, false⟩
        (some "+15551234567") "hi").2 = [] ∧
    safe_sms false (some "+15557770000") Failures.none (some "+15551234567") "hi" = ([], []) :=
  ⟨(C10_sms_gated_and_recorded_after_send true (some "+15557770000")
        (some "+15551234567") "hi" Failures.none).2.1.mpr ⟨by decide, rfl, rfl⟩,
   by
     have h := (C10_sms_gated_and_recorded_after_send true (some "+15557770000")
        (some "+15551234567") "hi" ⟨false, false, false, true, false, false⟩).2.1
     by_contra hne
     exact absurd (h.mp hne).2.1 (by decide),
   (C10_sms_gated_and_recorded_after_send false (some "+15557770000")
        (some "+15551234567") "hi" Failures.none).2.2 (by decide)⟩
